import Mathlib

set_option maxRecDepth 100000

/-!
# Verification of the safe-tx-hasher core

Shallow embedding of the repository's hash engine
(`EthersSafeTransactionHasher` / `ViemSafeTransactionHasher`) and calldata
decoder (`TransactionDataDecoder`), together with theorems settling the
specification claims.

Machine bytes are modelled as `Nat` values `< 256`; byte strings as
`List Nat`; JS strings as Lean `String` / `List Char`.
-/

/-! ## keccak-256

Both hasher implementations delegate to their library's `keccak256`
(original keccak padding `0x01 … 0x80`, rate 1088, output 256 bits).
The permutation state is 25 lanes of 64 bits, lane `(x, y)` at flat
index `x + 5 * y`; every lane is kept `< 2^64`.
-/
def rotLeft64 (x n : Nat) : Nat :=
  ((x <<< n) &&& 0xFFFFFFFFFFFFFFFF) ||| (x >>> (64 - n))

def keccakRCs : List Nat :=
  [1, 32898, 9223372036854808714,
   9223372039002292224, 32907, 2147483649,
   9223372039002292353, 9223372036854808585, 138,
   136, 2147516425, 2147483658,
   2147516555, 9223372036854775947, 9223372036854808713,
   9223372036854808579, 9223372036854808578, 9223372036854775936,
   32778, 9223372039002259466, 9223372039002292353,
   9223372036854808704, 2147483649, 9223372039002292232]

/-- One keccak-f round on a 25-lane state, every lane `< 2^64`; the lane
at `(x, y)` (flat index `x + 5 * y`) after ρπ is the θ-lane that was at
`((x + 3y) % 5, x)`, rotated by that source lane's offset; χ and ι follow. -/
def keccakRound (st : List Nat) (rc : Nat) : List Nat :=
  match st with
  | [a0, a1, a2, a3, a4, a5, a6, a7, a8, a9, a10, a11, a12, a13, a14, a15, a16, a17, a18, a19, a20, a21, a22, a23, a24] =>
    let c0 := a0 ^^^ a5 ^^^ a10 ^^^ a15 ^^^ a20
    let c1 := a1 ^^^ a6 ^^^ a11 ^^^ a16 ^^^ a21
    let c2 := a2 ^^^ a7 ^^^ a12 ^^^ a17 ^^^ a22
    let c3 := a3 ^^^ a8 ^^^ a13 ^^^ a18 ^^^ a23
    let c4 := a4 ^^^ a9 ^^^ a14 ^^^ a19 ^^^ a24
    let d0 := c4 ^^^ rotLeft64 c1 1
    let d1 := c0 ^^^ rotLeft64 c2 1
    let d2 := c1 ^^^ rotLeft64 c3 1
    let d3 := c2 ^^^ rotLeft64 c4 1
    let d4 := c3 ^^^ rotLeft64 c0 1
    let e0 := a0 ^^^ d0
    let e1 := a1 ^^^ d1
    let e2 := a2 ^^^ d2
    let e3 := a3 ^^^ d3
    let e4 := a4 ^^^ d4
    let e5 := a5 ^^^ d0
    let e6 := a6 ^^^ d1
    let e7 := a7 ^^^ d2
    let e8 := a8 ^^^ d3
    let e9 := a9 ^^^ d4
    let e10 := a10 ^^^ d0
    let e11 := a11 ^^^ d1
    let e12 := a12 ^^^ d2
    let e13 := a13 ^^^ d3
    let e14 := a14 ^^^ d4
    let e15 := a15 ^^^ d0
    let e16 := a16 ^^^ d1
    let e17 := a17 ^^^ d2
    let e18 := a18 ^^^ d3
    let e19 := a19 ^^^ d4
    let e20 := a20 ^^^ d0
    let e21 := a21 ^^^ d1
    let e22 := a22 ^^^ d2
    let e23 := a23 ^^^ d3
    let e24 := a24 ^^^ d4
    let b0 := rotLeft64 e0 0
    let b1 := rotLeft64 e6 44
    let b2 := rotLeft64 e12 43
    let b3 := rotLeft64 e18 21
    let b4 := rotLeft64 e24 14
    let b5 := rotLeft64 e3 28
    let b6 := rotLeft64 e9 20
    let b7 := rotLeft64 e10 3
    let b8 := rotLeft64 e16 45
    let b9 := rotLeft64 e22 61
    let b10 := rotLeft64 e1 1
    let b11 := rotLeft64 e7 6
    let b12 := rotLeft64 e13 25
    let b13 := rotLeft64 e19 8
    let b14 := rotLeft64 e20 18
    let b15 := rotLeft64 e4 27
    let b16 := rotLeft64 e5 36
    let b17 := rotLeft64 e11 10
    let b18 := rotLeft64 e17 15
    let b19 := rotLeft64 e23 56
    let b20 := rotLeft64 e2 62
    let b21 := rotLeft64 e8 55
    let b22 := rotLeft64 e14 39
    let b23 := rotLeft64 e15 41
    let b24 := rotLeft64 e21 2
    [(b0 ^^^ ((b1 ^^^ 0xFFFFFFFFFFFFFFFF) &&& b2)) ^^^ rc,
     b1 ^^^ ((b2 ^^^ 0xFFFFFFFFFFFFFFFF) &&& b3),
     b2 ^^^ ((b3 ^^^ 0xFFFFFFFFFFFFFFFF) &&& b4),
     b3 ^^^ ((b4 ^^^ 0xFFFFFFFFFFFFFFFF) &&& b0),
     b4 ^^^ ((b0 ^^^ 0xFFFFFFFFFFFFFFFF) &&& b1),
     b5 ^^^ ((b6 ^^^ 0xFFFFFFFFFFFFFFFF) &&& b7),
     b6 ^^^ ((b7 ^^^ 0xFFFFFFFFFFFFFFFF) &&& b8),
     b7 ^^^ ((b8 ^^^ 0xFFFFFFFFFFFFFFFF) &&& b9),
     b8 ^^^ ((b9 ^^^ 0xFFFFFFFFFFFFFFFF) &&& b5),
     b9 ^^^ ((b5 ^^^ 0xFFFFFFFFFFFFFFFF) &&& b6),
     b10 ^^^ ((b11 ^^^ 0xFFFFFFFFFFFFFFFF) &&& b12),
     b11 ^^^ ((b12 ^^^ 0xFFFFFFFFFFFFFFFF) &&& b13),
     b12 ^^^ ((b13 ^^^ 0xFFFFFFFFFFFFFFFF) &&& b14),
     b13 ^^^ ((b14 ^^^ 0xFFFFFFFFFFFFFFFF) &&& b10),
     b14 ^^^ ((b10 ^^^ 0xFFFFFFFFFFFFFFFF) &&& b11),
     b15 ^^^ ((b16 ^^^ 0xFFFFFFFFFFFFFFFF) &&& b17),
     b16 ^^^ ((b17 ^^^ 0xFFFFFFFFFFFFFFFF) &&& b18),
     b17 ^^^ ((b18 ^^^ 0xFFFFFFFFFFFFFFFF) &&& b19),
     b18 ^^^ ((b19 ^^^ 0xFFFFFFFFFFFFFFFF) &&& b15),
     b19 ^^^ ((b15 ^^^ 0xFFFFFFFFFFFFFFFF) &&& b16),
     b20 ^^^ ((b21 ^^^ 0xFFFFFFFFFFFFFFFF) &&& b22),
     b21 ^^^ ((b22 ^^^ 0xFFFFFFFFFFFFFFFF) &&& b23),
     b22 ^^^ ((b23 ^^^ 0xFFFFFFFFFFFFFFFF) &&& b24),
     b23 ^^^ ((b24 ^^^ 0xFFFFFFFFFFFFFFFF) &&& b20),
     b24 ^^^ ((b20 ^^^ 0xFFFFFFFFFFFFFFFF) &&& b21)]
  | _ => st

def keccakF (st : List Nat) : List Nat := keccakRCs.foldl keccakRound st

/-- Little-endian interpretation of up to 8 bytes as one lane. -/
def natOfLE8 (bytes : List Nat) : Nat := bytes.foldr (fun b acc => b + (acc <<< 8)) 0

def blockLane (block : List Nat) (i : Nat) : Nat :=
  if i < 17 then natOfLE8 ((block.drop (8 * i)).take 8) else 0

def xorBlock (st block : List Nat) : List Nat :=
  (List.range 25).map fun i => st.getD i 0 ^^^ blockLane block i

/-- keccak `pad10*1` suffix for a message of length `len` (rate 136 bytes). -/
def keccakPad (len : Nat) : List Nat :=
  if 136 - len % 136 = 1 then [0x81]
  else 0x01 :: (List.replicate (136 - len % 136 - 2) 0 ++ [0x80])

/-- Absorb up to `fuel` rate-sized blocks; structural recursion on `fuel`
keeps the sponge kernel-computable. -/
def absorbFuel : Nat → List Nat → List Nat → List Nat
  | 0, st, _ => st
  | fuel + 1, st, l =>
    if l = [] then st
    else absorbFuel fuel (keccakF (xorBlock st (l.take 136))) (l.drop 136)

def absorbChunks (st : List Nat) (l : List Nat) : List Nat :=
  absorbFuel (l.length / 136 + 1) st l

def keccak256 (msg : List Nat) : List Nat :=
  (List.range 32).map fun i =>
    ((absorbChunks (List.replicate 25 0) (msg ++ keccakPad msg.length)).getD (i / 8) 0 >>>
      (8 * (i % 8))) &&& 0xFF

/-! ## Fixed-width big-endian byte encodings -/
/-- `beBytes w n`: the `w`-byte big-endian encoding of `n % 256 ^ w`.
This is the semantics both `ethers` and `viem` give a static ABI word. -/
def beBytes : Nat → Nat → List Nat
  | 0, _ => []
  | w + 1, n => beBytes w (n / 256) ++ [n % 256]

def natOfBE (l : List Nat) : Nat := l.foldl (fun acc b => acc * 256 + b) 0

/-! ## Data model

`SafeTransactionParams` / `DomainData` from `ISafeTransactionHasher`
(addresses and integers as `Nat`, calldata as a byte list). -/
structure DomainData where
  chainId : Nat
  verifyingContract : Nat
deriving DecidableEq, Repr

structure SafeTransactionParams where
  «to» : Nat
  value : Nat
  data : List Nat
  operation : Nat
  safeTxGas : Nat
  baseGas : Nat
  gasPrice : Nat
  gasToken : Nat
  refundReceiver : Nat
  nonce : Nat
deriving DecidableEq, Repr

structure AllHashes where
  safeTxHash : List Nat
  domainHash : List Nat
  messageHash : List Nat
deriving DecidableEq, Repr

/-- UTF-8 bytes of a string; the two type-descriptor strings hashed by the
constructors are pure ASCII, where UTF-8 is the identity on code points. -/
def asciiBytes (s : String) : List Nat := s.data.map Char.toNat

namespace Ethers

/-! Embedding of `src/EthersSafeTransactionHasher.ts`.  `ethers.keccak256`
is `keccak256`; `AbiCoder.defaultAbiCoder().encode` on the static types
`bytes32 / address / uint256 / uint8` is the concatenation of 32-byte
big-endian words; `ethers.concat` is list append.  The domain hash is
computed once at construction; here it is the function of the domain
record that the constructor evaluates. -/
def DOMAIN_SEPARATOR_TYPEHASH : List Nat :=
  keccak256 (asciiBytes "EIP712Domain(uint256 chainId,address verifyingContract)")

def SAFE_TX_TYPEHASH : List Nat :=
  keccak256 (asciiBytes "SafeTx(address to,uint256 value,bytes data,uint8 operation,uint256 safeTxGas,uint256 baseGas,uint256 gasPrice,address gasToken,address refundReceiver,uint256 nonce)")

def calculateDomainHash (domain : DomainData) : List Nat :=
  keccak256 (DOMAIN_SEPARATOR_TYPEHASH ++ beBytes 32 domain.chainId ++
    beBytes 32 domain.verifyingContract)

def calculateRawSafeTxHash (tx : SafeTransactionParams) : List Nat :=
  keccak256 (SAFE_TX_TYPEHASH ++ beBytes 32 tx.«to» ++ beBytes 32 tx.value ++
    keccak256 tx.data ++ beBytes 32 tx.operation ++ beBytes 32 tx.safeTxGas ++
    beBytes 32 tx.baseGas ++ beBytes 32 tx.gasPrice ++ beBytes 32 tx.gasToken ++
    beBytes 32 tx.refundReceiver ++ beBytes 32 tx.nonce)

def calculateFinalSafeTxHash (domain : DomainData) (tx : SafeTransactionParams) : List Nat :=
  keccak256 (0x19 :: 0x01 :: (calculateDomainHash domain ++ calculateRawSafeTxHash tx))

def calculateMessageHash (tx : SafeTransactionParams) : List Nat :=
  calculateRawSafeTxHash tx

def calculateSafeTransactionHash (domain : DomainData) (tx : SafeTransactionParams) : List Nat :=
  calculateFinalSafeTxHash domain tx

def getAllHashes (domain : DomainData) (tx : SafeTransactionParams) : AllHashes :=
  { safeTxHash := calculateFinalSafeTxHash domain tx
    domainHash := calculateDomainHash domain
    messageHash := calculateRawSafeTxHash tx }

end Ethers

namespace Viem

/-! Embedding of `ViemSafeTransactionHasher` (the unnamed source file).
`viem`'s `keccak256`, `toHex` on an ASCII string, `encodeAbiParameters`
on the same static type list and `concat` have the same byte-level
semantics as the `ethers` primitives above. -/
def DOMAIN_SEPARATOR_TYPEHASH : List Nat :=
  keccak256 (asciiBytes "EIP712Domain(uint256 chainId,address verifyingContract)")

def SAFE_TX_TYPEHASH : List Nat :=
  keccak256 (asciiBytes "SafeTx(address to,uint256 value,bytes data,uint8 operation,uint256 safeTxGas,uint256 baseGas,uint256 gasPrice,address gasToken,address refundReceiver,uint256 nonce)")

def calculateDomainHash (domain : DomainData) : List Nat :=
  keccak256 (DOMAIN_SEPARATOR_TYPEHASH ++ beBytes 32 domain.chainId ++
    beBytes 32 domain.verifyingContract)

def calculateRawSafeTxHash (tx : SafeTransactionParams) : List Nat :=
  keccak256 (SAFE_TX_TYPEHASH ++ beBytes 32 tx.«to» ++ beBytes 32 tx.value ++
    keccak256 tx.data ++ beBytes 32 tx.operation ++ beBytes 32 tx.safeTxGas ++
    beBytes 32 tx.baseGas ++ beBytes 32 tx.gasPrice ++ beBytes 32 tx.gasToken ++
    beBytes 32 tx.refundReceiver ++ beBytes 32 tx.nonce)

def calculateFinalSafeTxHash (domain : DomainData) (tx : SafeTransactionParams) : List Nat :=
  keccak256 (0x19 :: 0x01 :: (calculateDomainHash domain ++ calculateRawSafeTxHash tx))

def calculateMessageHash (tx : SafeTransactionParams) : List Nat :=
  calculateRawSafeTxHash tx

def calculateSafeTransactionHash (domain : DomainData) (tx : SafeTransactionParams) : List Nat :=
  calculateFinalSafeTxHash domain tx

def getAllHashes (domain : DomainData) (tx : SafeTransactionParams) : AllHashes :=
  { safeTxHash := calculateFinalSafeTxHash domain tx
    domainHash := calculateDomainHash domain
    messageHash := calculateRawSafeTxHash tx }

end Viem

/-! ## The golden test fixture (`SafeTransactionHasher` test) -/
def goldenDomain : DomainData :=
  { chainId := 59144
    verifyingContract := 0xDb73ba19F072D0Fbc865781Ba468A9F8B77aD2C4 }

def goldenTransaction : SafeTransactionParams :=
  { «to» := 0x8b4B268a9aA797fD60889E88AC7bE9a0C4b37Ff4
    value := 0
    data := beBytes 68 0xa9059cbb0000000000000000000000008b4b268a9aa797fd60889e88ac7be9a0c4b37ff40000000000000000000000000000000000000000000000000000000511b5ac00
    operation := 0
    safeTxGas := 0
    baseGas := 0
    gasPrice := 0
    gasToken := 0
    refundReceiver := 0
    nonce := 60 }

/-- Left-pad a byte string into one 32-byte ABI word, as the spec words it. -/
def padLeft32 (l : List Nat) : List Nat := List.replicate (32 - l.length) 0 ++ l

/-- The struct-hash pre-image exactly as claim C3 words it: fixed field
order, addresses left-padded to 32 bytes, integers big-endian 256-bit
words, and the operation enum a single byte RIGHT-padded into its
32-byte word. -/
def specEncodedSafeTxOpRight (tx : SafeTransactionParams) : List Nat :=
  Ethers.SAFE_TX_TYPEHASH ++ padLeft32 (beBytes 20 tx.«to») ++ beBytes 32 tx.value ++
    keccak256 tx.data ++ (tx.operation :: List.replicate 31 0) ++ beBytes 32 tx.safeTxGas ++
    beBytes 32 tx.baseGas ++ beBytes 32 tx.gasPrice ++ padLeft32 (beBytes 20 tx.gasToken) ++
    padLeft32 (beBytes 20 tx.refundReceiver) ++ beBytes 32 tx.nonce

/-- The struct-hash pre-image as amended: identical to the claim's wording
except that the operation byte is LEFT-padded into its 32-byte word (ABI
`uint8` encoding), occupying the lowest-order byte. -/
def specEncodedSafeTx (tx : SafeTransactionParams) : List Nat :=
  Ethers.SAFE_TX_TYPEHASH ++ padLeft32 (beBytes 20 tx.«to») ++ beBytes 32 tx.value ++
    keccak256 tx.data ++ (List.replicate 31 0 ++ [tx.operation]) ++ beBytes 32 tx.safeTxGas ++
    beBytes 32 tx.baseGas ++ beBytes 32 tx.gasPrice ++ padLeft32 (beBytes 20 tx.gasToken) ++
    padLeft32 (beBytes 20 tx.refundReceiver) ++ beBytes 32 tx.nonce

/-! ## TransactionDataDecoder

Embedding of `src/utils/TransactionDataDecoder.ts`.  JS strings are
modelled as `List Char` (wrapped in `String` at the API); on every path
the decoder reaches, a JS string's `.length` equals its code-point count,
so `List.length` is faithful. -/
/-- JS `s.startsWith("0x")` (case-sensitive). -/
def startsWith0x : List Char → Bool
  | '0' :: 'x' :: _ => true
  | _ => false

def isHexDigitChar (c : Char) : Bool :=
  (48 ≤ c.toNat && c.toNat ≤ 57) || (97 ≤ c.toNat && c.toNat ≤ 102) ||
    (65 ≤ c.toNat && c.toNat ≤ 70)

def hexDigitVal (c : Char) : Nat :=
  if 48 ≤ c.toNat && c.toNat ≤ 57 then c.toNat - 48
  else if 97 ≤ c.toNat && c.toNat ≤ 102 then c.toNat - 87
  else c.toNat - 55

/-- Parse pairs of hex digits into bytes (callers guarantee an even number
of hex characters). -/
def hexPairsToBytes : List Char → List Nat
  | c1 :: c2 :: rest => (hexDigitVal c1 * 16 + hexDigitVal c2) :: hexPairsToBytes rest
  | _ => []

def hexDigitChar (k : Nat) : Char :=
  Char.ofNat (if k < 10 then 48 + k else 87 + k)

/-- Lowercase hex rendering of a byte string. -/
def hexOfBytes : List Nat → List Char
  | [] => []
  | b :: rest => hexDigitChar (b / 16) :: hexDigitChar (b % 16) :: hexOfBytes rest

structure ValidationResult where
  valid : Bool
  error : Option String := none
deriving DecidableEq, Repr

structure DecodedResult where
  success : Bool
  value : String
  error : Option String := none
deriving DecidableEq, Repr

namespace TransactionDataDecoder

/-- `validateHexData`: the emptiness test is JS falsiness of a string
(true exactly for `""`); the `typeof` guard can never fire on a string
argument and is omitted; the regex `^0x[0-9a-fA-F]*$`, tested after the
`startsWith("0x")` guard has passed, is equivalent to all characters
after the prefix being hex digits. -/
def validateHexDataL (l : List Char) : ValidationResult :=
  if l = [] then { valid := false, error := some "Data is empty" }
  else if startsWith0x l = false then
    { valid := false, error := some "Hex data must start with 0x" }
  else if (l.drop 2).all isHexDigitChar = false then
    { valid := false, error := some "Data contains invalid hex characters" }
  else if (l.length - 2) % 2 ≠ 0 then
    { valid := false, error := some "Hex data must have even length" }
  else { valid := true }

def validateHexData (data : String) : ValidationResult := validateHexDataL data.data

end TransactionDataDecoder

/-- The whitespace set of JS `String.prototype.trim` (ECMA-262 WhiteSpace
and LineTerminator code points). -/
def isJsWhite (c : Char) : Bool :=
  c.toNat = 0x09 || c.toNat = 0x0A || c.toNat = 0x0B || c.toNat = 0x0C ||
    c.toNat = 0x0D || c.toNat = 0x20 || c.toNat = 0xA0 || c.toNat = 0x1680 ||
    (0x2000 ≤ c.toNat && c.toNat ≤ 0x200A) || c.toNat = 0x2028 || c.toNat = 0x2029 ||
    c.toNat = 0x202F || c.toNat = 0x205F || c.toNat = 0x3000 || c.toNat = 0xFEFF

def jsTrim (cs : List Char) : List Char :=
  ((cs.dropWhile isJsWhite).reverse.dropWhile isJsWhite).reverse

/-- `replace(/\0/g, "")`. -/
def removeNulChars (cs : List Char) : List Char := cs.filter (fun c => c.toNat != 0)

def utf8Cont (b : Nat) : Bool := 0x80 ≤ b && b < 0xC0

/-- Strict UTF-8 decoding as `ethers.toUtf8String` performs it: its default
error handler throws on a bad prefix byte, an unexpected or missing
continuation byte, truncated input, overlong encodings, UTF-16 surrogate
code points and out-of-range code points; here every such throw is an
`Except.error` carrying the cause's message. -/
def utf8Decode : List Nat → Except String (List Char)
  | [] => .ok []
  | b :: rest =>
    if b < 0x80 then (utf8Decode rest).map (fun cs => Char.ofNat b :: cs)
    else if b < 0xC0 then .error "unexpected continuation byte"
    else if b < 0xE0 then
      match rest with
      | b1 :: rest1 =>
        if utf8Cont b1 then
          if (b - 0xC0) * 64 + (b1 - 0x80) < 0x80 then .error "overlong UTF-8 sequence"
          else (utf8Decode rest1).map (fun cs => Char.ofNat ((b - 0xC0) * 64 + (b1 - 0x80)) :: cs)
        else .error "invalid continuation byte"
      | [] => .error "string overrun"
    else if b < 0xF0 then
      match rest with
      | b1 :: b2 :: rest2 =>
        if utf8Cont b1 && utf8Cont b2 then
          if (b - 0xE0) * 4096 + (b1 - 0x80) * 64 + (b2 - 0x80) < 0x800 then
            .error "overlong UTF-8 sequence"
          else if 0xD800 ≤ (b - 0xE0) * 4096 + (b1 - 0x80) * 64 + (b2 - 0x80) ∧
              (b - 0xE0) * 4096 + (b1 - 0x80) * 64 + (b2 - 0x80) ≤ 0xDFFF then
            .error "UTF-16 surrogate"
          else
            (utf8Decode rest2).map
              (fun cs => Char.ofNat ((b - 0xE0) * 4096 + (b1 - 0x80) * 64 + (b2 - 0x80)) :: cs)
        else .error "invalid continuation byte"
      | _ => .error "string overrun"
    else if b < 0xF8 then
      match rest with
      | b1 :: b2 :: b3 :: rest3 =>
        if utf8Cont b1 && utf8Cont b2 && utf8Cont b3 then
          if 0x10FFFF < (b - 0xF0) * 262144 + (b1 - 0x80) * 4096 + (b2 - 0x80) * 64 + (b3 - 0x80) then
            .error "out of range codepoint"
          else if 0xD800 ≤ (b - 0xF0) * 262144 + (b1 - 0x80) * 4096 + (b2 - 0x80) * 64 + (b3 - 0x80) ∧
              (b - 0xF0) * 262144 + (b1 - 0x80) * 4096 + (b2 - 0x80) * 64 + (b3 - 0x80) ≤ 0xDFFF then
            .error "UTF-16 surrogate"
          else if (b - 0xF0) * 262144 + (b1 - 0x80) * 4096 + (b2 - 0x80) * 64 + (b3 - 0x80) < 0x10000 then
            .error "overlong UTF-8 sequence"
          else
            (utf8Decode rest3).map
              (fun cs =>
                Char.ofNat ((b - 0xF0) * 262144 + (b1 - 0x80) * 4096 + (b2 - 0x80) * 64 + (b3 - 0x80)) :: cs)
        else .error "invalid continuation byte"
      | _ => .error "string overrun"
    else .error "invalid UTF-8 prefix byte"

namespace TransactionDataDecoder

/-- `decodeAsciiData`: validate, require 32 bytes of payload, then
`toUtf8String(dataSlice(encodedData, 32))` — hex-parse everything after
character 66 — trimmed and with NUL characters removed. -/
def decodeAsciiDataL (l : List Char) : DecodedResult :=
  let validation := validateHexDataL l
  if validation.valid = false then { success := false, value := "", error := validation.error }
  else if l.length < 66 then
    { success := false, value := "", error := some "Data too short, minimum 32 bytes required" }
  else
    match utf8Decode (hexPairsToBytes (l.drop 66)) with
    | .ok cs => { success := true, value := String.mk (removeNulChars (jsTrim cs)) }
    | .error m =>
      { success := false, value := "", error := some ("Failed to decode data: " ++ m) }

def decodeAsciiData (encodedData : String) : DecodedResult := decodeAsciiDataL encodedData.data

end TransactionDataDecoder

/-! ## decodeFunctionCall -/
inductive AbiType where
  | address
  | uint256
deriving DecidableEq, Repr

/-- A decoded parameter as `ethers` returns it: an address (a checksummed
hex string, captured here by its 160-bit numeric value, which is exactly
its case-insensitive identity) or a `uint256` bigint. -/
inductive Param where
  | addr (a : Nat)
  | uint (n : Nat)
deriving DecidableEq, Repr

def abiTypeName : AbiType → String
  | .address => "address"
  | .uint256 => "uint256"

structure KnownFn where
  name : String
  types : List AbiType
deriving DecidableEq, Repr

/-- The static `knownFunctions` table, keyed by the exact (case-sensitive)
10-character selector string. -/
def lookupKnown (sel : List Char) : Option KnownFn :=
  if sel = "0xa9059cbb".data then some { name := "transfer", types := [.address, .uint256] }
  else if sel = "0x23b872dd".data then
    some { name := "transferFrom", types := [.address, .address, .uint256] }
  else if sel = "0x095ea7b3".data then some { name := "approve", types := [.address, .uint256] }
  else if sel = "0x70a08231".data then some { name := "balanceOf", types := [.address] }
  else none

/-- `ethers.AbiCoder.decode` on a static head type list: the i-th value is
read from the 32-byte word at offset `32 * i`; reading past the end of the
data is a buffer overrun; an address word whose value does not fit 20
bytes faults; extra trailing bytes are tolerated. -/
def decodeParamsAux : List AbiType → List Nat → Nat → Except String (List Param)
  | [], _, _ => .ok []
  | t :: ts, bytes, off =>
    if off + 32 ≤ bytes.length then
      match t with
      | .address =>
        if natOfBE ((bytes.drop off).take 32) < 2 ^ 160 then
          (decodeParamsAux ts bytes (off + 32)).map
            (fun ps => .addr (natOfBE ((bytes.drop off).take 32)) :: ps)
        else .error "value exceeds address width"
      | .uint256 =>
        (decodeParamsAux ts bytes (off + 32)).map
          (fun ps => .uint (natOfBE ((bytes.drop off).take 32)) :: ps)
    else .error "data out-of-bounds"

def decodeParams (ts : List AbiType) (bytes : List Nat) : Except String (List Param) :=
  decodeParamsAux ts bytes 0

structure DecodedFunctionResult where
  success : Bool
  value : String
  signature : Option String := none
  name : Option String := none
  params : Option (List Param) := none
  error : Option String := none
deriving DecidableEq, Repr

namespace TransactionDataDecoder

/-- `decodeFunctionCall`: validate, require 4 selector bytes, slice the
10-character selector, look it up in the static table and decode the
parameter words after it; in the embedding the only throwing operation
inside the outer `try` is the parameter decode, whose failure is caught
by the inner handler, so the outer catch-all branch is unreachable. -/
def decodeFunctionCallL (l : List Char) : DecodedFunctionResult :=
  let validation := validateHexDataL l
  if validation.valid = false then { success := false, value := "", error := validation.error }
  else if l.length < 10 then
    { success := false, value := ""
      error := some "Data too short, minimum 4 bytes required for function selector" }
  else
    match lookupKnown (l.take 10) with
    | some fn =>
      match decodeParams fn.types (hexPairsToBytes (l.drop 10)) with
      | .ok ps =>
        { success := true
          value := fn.name ++ "(" ++ String.intercalate "," (fn.types.map abiTypeName) ++ ")"
          signature := some (String.mk (l.take 10))
          name := some fn.name
          params := some ps }
      | .error m =>
        { success := true
          value := fn.name
          signature := some (String.mk (l.take 10))
          name := some fn.name
          error := some ("Identified function but failed to decode parameters: " ++ m) }
    | none =>
      { success := true
        value := String.mk (l.take 10)
        signature := some (String.mk (l.take 10)) }

def decodeFunctionCall (encodedData : String) : DecodedFunctionResult :=
  decodeFunctionCallL encodedData.data

end TransactionDataDecoder

/-! ## C6: decodeAsciiData -/
/-- The ASCII-embedded fixture from the decoder test: a 32-byte offset
word, the 138-character transfer-call text, and NUL padding. -/
def goldenAsciiInput : String :=
  "0x000000000000000000000000000000000000000000000000000000000000008a30786139303539636262303030303030303030303030303030303030303030303030386234623236386139616137393766643630383839653838616337626539613063346233376666343030303030303030303030303030303030303030303030303030303030303030303030303030303030303030303030303030303030303035313162356163303000000000000000000000000000000000000000000000"

/-! ## C8, C9: decodeFunctionCall selector handling -/
deriving instance DecidableEq for Except

/-- The four selectors of the static `knownFunctions` table, as bytes. -/
def knownSelectorBytes : List (List Nat) :=
  [[0xa9, 0x05, 0x9c, 0xbb], [0x23, 0xb8, 0x72, 0xdd], [0x09, 0x5e, 0xa7, 0xb3],
   [0x70, 0xa0, 0x82, 0x31]]

/-- The exact calldata string of a `transfer(address,uint256)` call in
lowercase hex: the selector `a9059cbb`, the 32-byte address word, the
32-byte amount word. -/
def transferCallChars (a n : Nat) : List Char :=
  '0' :: 'x' :: hexOfBytes ([0xa9, 0x05, 0x9c, 0xbb] ++ beBytes 32 a ++ beBytes 32 n)

theorem beBytes_length (w n : Nat) : (beBytes w n).length = w := by
  induction w generalizing n with
  | zero => rfl
  | succ w ih => simp [beBytes, ih]

theorem beBytes_lt (w n : Nat) : ∀ b ∈ beBytes w n, b < 256 := by
  induction w generalizing n with
  | zero => simp [beBytes]
  | succ w ih =>
    intro b hb
    simp only [beBytes, List.mem_append, List.mem_singleton] at hb
    rcases hb with hb | hb
    · exact ih _ _ hb
    · subst hb; exact Nat.mod_lt _ (by norm_num)

theorem natOfBE_beBytes (w n : Nat) : natOfBE (beBytes w n) = n % 256 ^ w := by
  induction w generalizing n with
  | zero => simp [beBytes, natOfBE, Nat.mod_one]
  | succ w ih =>
    have hfold : natOfBE (beBytes w (n / 256) ++ [n % 256]) =
        natOfBE (beBytes w (n / 256)) * 256 + n % 256 := by
      simp [natOfBE, List.foldl_append]
    have hmod : n % 256 ^ (w + 1) = n % 256 + 256 * (n / 256 % 256 ^ w) := by
      calc n % 256 ^ (w + 1) = n % (256 * 256 ^ w) := by ring_nf
        _ = n % 256 + 256 * (n / 256 % 256 ^ w) := Nat.mod_mul
    simp only [beBytes, hfold, ih, hmod]
    ring

theorem natOfBE_beBytes_of_lt {w n : Nat} (h : n < 256 ^ w) : natOfBE (beBytes w n) = n := by
  rw [natOfBE_beBytes, Nat.mod_eq_of_lt h]

/-- Sanity check of the keccak-256 embedding on the standard empty-message
test vector. -/
theorem keccak256_nil_vector :
    keccak256 [] =
      beBytes 32 0xc5d2460186f7233c927e7db2dcc703c0e500b653ca82273b7bfad8045d85a470 := by
  decide

set_option maxHeartbeats 4000000 in
/-- C1: on the golden fixture the test suite fixes (chainId 59144, the Linea
Safe, `to` = 0x8b4B268a… = the transfer recipient, the 68-byte ERC-20
transfer calldata, nonce 60, everything else zero), `getAllHashes` of both
implementations reproduces the expected domain hash
0x7ae38199…, but NOT the expected message hash 0xd7a20bc0… or final hash
0x64b865a1…: the engines compute 0x08de3080… and 0x1c8bb9fd… instead.
The three expected digests are exactly what the same engine yields when
`to` is 0x17621186…1ff (the Linea USDC token contract) — the fixture's
`to` field contradicts the test's own expected constants. -/
theorem c1_getAllHashes_golden_vector_code_bug :
    Ethers.getAllHashes goldenDomain goldenTransaction =
        { safeTxHash := beBytes 32 0x1c8bb9fdc4d957f77da17bb7ac5f42a9c89b334c88fcf6195968d4a974c46a84
          domainHash := beBytes 32 0x7ae3819992af9cb3416bfbfc483b427868cec8257ab807445212b48a5ca86dfd
          messageHash := beBytes 32 0x08de308016c0bd5b24628c18ab9d28b3f129a9aa9f40900f6fc622f82bb194a9 } ∧
      Viem.getAllHashes goldenDomain goldenTransaction =
        { safeTxHash := beBytes 32 0x1c8bb9fdc4d957f77da17bb7ac5f42a9c89b334c88fcf6195968d4a974c46a84
          domainHash := beBytes 32 0x7ae3819992af9cb3416bfbfc483b427868cec8257ab807445212b48a5ca86dfd
          messageHash := beBytes 32 0x08de308016c0bd5b24628c18ab9d28b3f129a9aa9f40900f6fc622f82bb194a9 } ∧
      Ethers.getAllHashes goldenDomain
          { goldenTransaction with «to» := 0x176211869cA2b568f2A7D4EE941E073a821EE1ff } =
        { safeTxHash := beBytes 32 0x64b865a13a4d2968c6f6428a4403a2df33c35171d482322238bbac22698e6189
          domainHash := beBytes 32 0x7ae3819992af9cb3416bfbfc483b427868cec8257ab807445212b48a5ca86dfd
          messageHash := beBytes 32 0xd7a20bc0e18961ef47e55f868cdcd8d41a58bb689ee1837dafe8aa99a588494a } := by
  have h1 : Ethers.getAllHashes goldenDomain goldenTransaction =
      { safeTxHash := beBytes 32 0x1c8bb9fdc4d957f77da17bb7ac5f42a9c89b334c88fcf6195968d4a974c46a84
        domainHash := beBytes 32 0x7ae3819992af9cb3416bfbfc483b427868cec8257ab807445212b48a5ca86dfd
        messageHash := beBytes 32 0x08de308016c0bd5b24628c18ab9d28b3f129a9aa9f40900f6fc622f82bb194a9 } := by
    decide
  have hsame : Viem.getAllHashes goldenDomain goldenTransaction =
      Ethers.getAllHashes goldenDomain goldenTransaction := rfl
  exact ⟨h1, hsame.trans h1, by decide⟩

theorem keccak256_length (msg : List Nat) : (keccak256 msg).length = 32 := by
  simp [keccak256]

/-- C2: for every domain and transaction, the final hash of both engines is
keccak256 of exactly `0x19 ∥ 0x01 ∥ domainHash ∥ messageHash`; the
concatenation is 66 bytes with no length prefixes and its two leading
bytes are `0x19` and `0x01`. -/
theorem c2_final_hash_structure (domain : DomainData) (tx : SafeTransactionParams) :
    Ethers.calculateFinalSafeTxHash domain tx =
        keccak256 (0x19 :: 0x01 ::
          (Ethers.calculateDomainHash domain ++ Ethers.calculateRawSafeTxHash tx)) ∧
      Viem.calculateFinalSafeTxHash domain tx =
        keccak256 (0x19 :: 0x01 ::
          (Viem.calculateDomainHash domain ++ Viem.calculateRawSafeTxHash tx)) ∧
      (0x19 :: 0x01 ::
          (Ethers.calculateDomainHash domain ++ Ethers.calculateRawSafeTxHash tx)).length = 66 ∧
      (0x19 :: 0x01 ::
          (Ethers.calculateDomainHash domain ++ Ethers.calculateRawSafeTxHash tx)).take 2 =
        [0x19, 0x01] := by
  refine ⟨rfl, rfl, ?_, rfl⟩
  simp [Ethers.calculateDomainHash, Ethers.calculateRawSafeTxHash, keccak256_length]

/-- C4: the `ethers`-based and the `viem`-based hashers agree on both type
hashes, the domain hash, the message hash and the final hash for every
domain and transaction — the duplication is behaviourally redundant. -/
theorem c4_ethers_viem_equivalent (domain : DomainData) (tx : SafeTransactionParams) :
    Ethers.DOMAIN_SEPARATOR_TYPEHASH = Viem.DOMAIN_SEPARATOR_TYPEHASH ∧
      Ethers.SAFE_TX_TYPEHASH = Viem.SAFE_TX_TYPEHASH ∧
      Ethers.calculateDomainHash domain = Viem.calculateDomainHash domain ∧
      Ethers.calculateRawSafeTxHash tx = Viem.calculateRawSafeTxHash tx ∧
      Ethers.calculateFinalSafeTxHash domain tx = Viem.calculateFinalSafeTxHash domain tx ∧
      Ethers.getAllHashes domain tx = Viem.getAllHashes domain tx :=
  ⟨rfl, rfl, rfl, rfl, rfl, rfl⟩

/-! ## C3: the struct-hash pre-image, spelled out as the spec words it -/
theorem beBytes_zero_cons {w n : Nat} (h : n < 256 ^ w) :
    beBytes (w + 1) n = 0 :: beBytes w n := by
  induction w generalizing n with
  | zero =>
    have hn : n = 0 := by omega
    subst hn; rfl
  | succ w ih =>
    have hdiv : n / 256 < 256 ^ w := by
      rw [Nat.div_lt_iff_lt_mul (by norm_num)]
      calc n < 256 ^ (w + 1) := h
        _ = 256 ^ w * 256 := by ring
    show beBytes (w + 1 + 1) n = 0 :: beBytes (w + 1) n
    calc beBytes (w + 1 + 1) n = beBytes (w + 1) (n / 256) ++ [n % 256] := rfl
      _ = (0 :: beBytes w (n / 256)) ++ [n % 256] := by rw [ih hdiv]
      _ = 0 :: beBytes (w + 1) n := rfl

theorem beBytes_pad (j : Nat) {w n : Nat} (h : n < 256 ^ w) :
    beBytes (w + j) n = List.replicate j 0 ++ beBytes w n := by
  induction j with
  | zero => simp
  | succ j ih =>
    have hle : n < 256 ^ (w + j) :=
      lt_of_lt_of_le h (Nat.pow_le_pow_right (by norm_num) (Nat.le_add_right w j))
    calc beBytes (w + (j + 1)) n = beBytes ((w + j) + 1) n := by ring_nf
      _ = 0 :: beBytes (w + j) n := beBytes_zero_cons hle
      _ = 0 :: (List.replicate j 0 ++ beBytes w n) := by rw [ih]
      _ = List.replicate (j + 1) 0 ++ beBytes w n := rfl

set_option maxHeartbeats 4000000 in
/-- Counterexample to C3 as stated: on the golden transaction with
`operation = 1` (DelegateCall), the engine's message hash is NOT the
keccak256 of the claim's encoding with a right-padded operation byte. -/
theorem c3_op_right_padded_counterexample :
    Ethers.calculateRawSafeTxHash { goldenTransaction with operation := 1 } ≠
      keccak256 (specEncodedSafeTxOpRight { goldenTransaction with operation := 1 }) := by
  decide

theorem word_of_address {a : Nat} (h : a < 2 ^ 160) :
    beBytes 32 a = padLeft32 (beBytes 20 a) := by
  have h' : a < 256 ^ 20 := by
    calc a < 2 ^ 160 := h
      _ = 256 ^ 20 := by norm_num
  calc beBytes 32 a = beBytes (20 + 12) a := by norm_num
    _ = List.replicate 12 0 ++ beBytes 20 a := beBytes_pad 12 h'
    _ = padLeft32 (beBytes 20 a) := by simp [padLeft32, beBytes_length]

theorem word_of_byte {b : Nat} (h : b < 256) :
    beBytes 32 b = List.replicate 31 0 ++ [b] := by
  have h' : b < 256 ^ 1 := by simpa using h
  calc beBytes 32 b = beBytes (1 + 31) b := by norm_num
    _ = List.replicate 31 0 ++ beBytes 1 b := beBytes_pad 31 h'
    _ = List.replicate 31 0 ++ [b] := by
        simp [beBytes, Nat.mod_eq_of_lt h, Nat.div_eq_of_lt h]

/-- C3 as amended: for every transaction whose address fields fit 20 bytes
and whose operation fits one byte, the message hash is keccak256 of the
ABI-style encoding in the claim's fixed field order, with each address
left-padded to 32 bytes, each integer a big-endian 256-bit word, and the
operation byte LEFT-padded (not right-padded) into its word. -/
theorem c3_message_hash_abi_encoding (tx : SafeTransactionParams)
    (hto : tx.«to» < 2 ^ 160) (hgt : tx.gasToken < 2 ^ 160)
    (hrr : tx.refundReceiver < 2 ^ 160) (hop : tx.operation < 256) :
    Ethers.calculateRawSafeTxHash tx = keccak256 (specEncodedSafeTx tx) := by
  unfold Ethers.calculateRawSafeTxHash specEncodedSafeTx
  rw [word_of_address hto, word_of_address hgt, word_of_address hrr, word_of_byte hop]

/-- Witness for C3's amended theorem at the golden transaction. -/
theorem c3_message_hash_abi_encoding_witness :
    Ethers.calculateRawSafeTxHash goldenTransaction =
      keccak256 (specEncodedSafeTx goldenTransaction) :=
  c3_message_hash_abi_encoding goldenTransaction (by norm_num [goldenTransaction])
    (by norm_num [goldenTransaction]) (by norm_num [goldenTransaction])
    (by norm_num [goldenTransaction])

/-! ## C5: validateHexData -/
/-- C5: `validateHexData` applies its rules in the fixed order — non-empty,
`0x` prefix, hex-only characters, even remaining length — returning the
first violated rule's reason only; it accepts `"0x"`, `"0x00"` and
`"0xabcdef"`, and rejects the empty string, a missing prefix, a non-hex
character after the prefix, and an odd-length payload. -/
theorem c5_validateHexData_rules :
    (TransactionDataDecoder.validateHexData "" =
        { valid := false, error := some "Data is empty" }) ∧
      (∀ s : String, s ≠ "" → startsWith0x s.data = false →
        TransactionDataDecoder.validateHexData s =
          { valid := false, error := some "Hex data must start with 0x" }) ∧
      (∀ s : String, startsWith0x s.data = true →
        (s.data.drop 2).all isHexDigitChar = false →
        TransactionDataDecoder.validateHexData s =
          { valid := false, error := some "Data contains invalid hex characters" }) ∧
      (∀ s : String, startsWith0x s.data = true →
        (s.data.drop 2).all isHexDigitChar = true → (s.data.length - 2) % 2 ≠ 0 →
        TransactionDataDecoder.validateHexData s =
          { valid := false, error := some "Hex data must have even length" }) ∧
      (∀ s : String, startsWith0x s.data = true →
        (s.data.drop 2).all isHexDigitChar = true → (s.data.length - 2) % 2 = 0 →
        TransactionDataDecoder.validateHexData s = { valid := true, error := none }) ∧
      TransactionDataDecoder.validateHexData "0x" = { valid := true, error := none } ∧
      TransactionDataDecoder.validateHexData "0x00" = { valid := true, error := none } ∧
      TransactionDataDecoder.validateHexData "0xabcdef" = { valid := true, error := none } ∧
      TransactionDataDecoder.validateHexData "1234abcd" =
        { valid := false, error := some "Hex data must start with 0x" } ∧
      TransactionDataDecoder.validateHexData "0x12g4" =
        { valid := false, error := some "Data contains invalid hex characters" } ∧
      TransactionDataDecoder.validateHexData "0x123" =
        { valid := false, error := some "Hex data must have even length" } := by
  refine ⟨by decide, ?_, ?_, ?_, ?_, by decide, by decide, by decide, by decide, by decide,
    by decide⟩
  · intro s hne h0x
    have hd : s.data ≠ [] := by
      intro h
      exact hne (String.ext (h.trans rfl))
    simp [TransactionDataDecoder.validateHexData, TransactionDataDecoder.validateHexDataL,
      hd, h0x]
  · intro s h0x hhex
    have hd : s.data ≠ [] := by
      intro h
      rw [h] at h0x
      exact absurd h0x (by decide)
    simp [TransactionDataDecoder.validateHexData, TransactionDataDecoder.validateHexDataL,
      hd, h0x, hhex]
  · intro s h0x hhex hodd
    have hd : s.data ≠ [] := by
      intro h
      rw [h] at h0x
      exact absurd h0x (by decide)
    simp [TransactionDataDecoder.validateHexData, TransactionDataDecoder.validateHexDataL,
      hd, h0x, hhex, hodd]
    rw [show s.length = s.data.length from rfl]
    omega
  · intro s h0x hhex heven
    have hd : s.data ≠ [] := by
      intro h
      rw [h] at h0x
      exact absurd h0x (by decide)
    simp [TransactionDataDecoder.validateHexData, TransactionDataDecoder.validateHexDataL,
      hd, h0x, hhex, heven]
    rw [show s.length = s.data.length from rfl]
    omega

/-- Witness for C5 at a concrete prefix-less input. -/
theorem c5_validateHexData_rules_witness :
    TransactionDataDecoder.validateHexData "abc" =
      { valid := false, error := some "Hex data must start with 0x" } :=
  c5_validateHexData_rules.2.1 "abc" (by decide) (by decide)

/-- C6: `decodeAsciiData` validates first and fails with that validation's
reason; fails with the "too short" error below 66 characters; otherwise
strips exactly the first 32 bytes, UTF-8-decodes the remainder, trims
surrounding whitespace and removes NUL characters, returning success; a
UTF-8 decoding failure yields a failure result with the cause's message
embedded. On the 32-byte-offset-prefixed fixture it returns success whose
value is exactly the known transfer call's hex string. -/
theorem c6_decodeAsciiData :
    (∀ s : String, (TransactionDataDecoder.validateHexData s).valid = false →
        TransactionDataDecoder.decodeAsciiData s =
          { success := false, value := ""
            error := (TransactionDataDecoder.validateHexData s).error }) ∧
      (∀ s : String, (TransactionDataDecoder.validateHexData s).valid = true →
        s.data.length < 66 →
        TransactionDataDecoder.decodeAsciiData s =
          { success := false, value := ""
            error := some "Data too short, minimum 32 bytes required" }) ∧
      (∀ (s : String) (cs : List Char),
        (TransactionDataDecoder.validateHexData s).valid = true → ¬ s.data.length < 66 →
        utf8Decode (hexPairsToBytes (s.data.drop 66)) = .ok cs →
        TransactionDataDecoder.decodeAsciiData s =
          { success := true, value := String.mk (removeNulChars (jsTrim cs)), error := none }) ∧
      (∀ (s : String) (m : String),
        (TransactionDataDecoder.validateHexData s).valid = true → ¬ s.data.length < 66 →
        utf8Decode (hexPairsToBytes (s.data.drop 66)) = .error m →
        TransactionDataDecoder.decodeAsciiData s =
          { success := false, value := ""
            error := some ("Failed to decode data: " ++ m) }) ∧
      TransactionDataDecoder.decodeAsciiData goldenAsciiInput =
        { success := true
          value := "0xa9059cbb0000000000000000000000008b4b268a9aa797fd60889e88ac7be9a0c4b37ff40000000000000000000000000000000000000000000000000000000511b5ac00"
          error := none } := by
  refine ⟨?_, ?_, ?_, ?_, by decide⟩
  · intro s h
    simp [TransactionDataDecoder.decodeAsciiData, TransactionDataDecoder.decodeAsciiDataL,
      TransactionDataDecoder.validateHexData] at h ⊢
    simp [h]
  · intro s h hlen
    have hlen' : s.length < 66 := hlen
    simp [TransactionDataDecoder.decodeAsciiData, TransactionDataDecoder.decodeAsciiDataL,
      TransactionDataDecoder.validateHexData] at h ⊢
    simp [h, hlen']
  · intro s cs h hlen hok
    have hlen' : ¬ s.length < 66 := hlen
    simp [TransactionDataDecoder.decodeAsciiData, TransactionDataDecoder.decodeAsciiDataL,
      TransactionDataDecoder.validateHexData] at h hok ⊢
    simp [h, hlen', hok]
  · intro s m h hlen herr
    have hlen' : ¬ s.length < 66 := hlen
    simp [TransactionDataDecoder.decodeAsciiData, TransactionDataDecoder.decodeAsciiDataL,
      TransactionDataDecoder.validateHexData] at h herr ⊢
    simp [h, hlen', herr]

/-- Witness for C6 at a concrete too-short input. -/
theorem c6_decodeAsciiData_witness :
    TransactionDataDecoder.decodeAsciiData "0x1234" =
      { success := false, value := ""
        error := some "Data too short, minimum 32 bytes required" } :=
  c6_decodeAsciiData.2.1 "0x1234" (by decide) (by decide)

theorem hexPairsToBytes_cons (c1 c2 : Char) (t : List Char) :
    hexPairsToBytes (c1 :: c2 :: t) =
      (hexDigitVal c1 * 16 + hexDigitVal c2) :: hexPairsToBytes t := rfl

/-- If the 10-character selector slice is `0x` followed by eight hex
characters, the first four parsed bytes are those characters' values. -/
theorem take10_selector_bytes (l : List Char) (c1 c2 c3 c4 c5 c6 c7 c8 : Char)
    (h : l.take 10 = ['0', 'x', c1, c2, c3, c4, c5, c6, c7, c8]) :
    (hexPairsToBytes (l.drop 2)).take 4 =
      [hexDigitVal c1 * 16 + hexDigitVal c2, hexDigitVal c3 * 16 + hexDigitVal c4,
       hexDigitVal c5 * 16 + hexDigitVal c6, hexDigitVal c7 * 16 + hexDigitVal c8] := by
  have hsplit := (List.take_append_drop 10 l).symm
  rw [h] at hsplit
  conv_lhs => rw [hsplit]
  rfl

/-- C8: on well-formed hex data of at least 4 bytes whose leading 4-byte
selector is not in the static table, `decodeFunctionCall` returns success
with the signature set to the selector slice and `name`/`params`/`error`
all absent. -/
theorem c8_decodeFunctionCall_unknown_selector (l : List Char)
    (hval : (TransactionDataDecoder.validateHexDataL l).valid = true)
    (hlen : 10 ≤ l.length)
    (hsel : (hexPairsToBytes (l.drop 2)).take 4 ∉ knownSelectorBytes) :
    TransactionDataDecoder.decodeFunctionCallL l =
      { success := true, value := String.mk (l.take 10)
        signature := some (String.mk (l.take 10)) } := by
  have k1 : l.take 10 ≠ "0xa9059cbb".data := by
    intro he
    apply hsel
    have hb := take10_selector_bytes l 'a' '9' '0' '5' '9' 'c' 'b' 'b' (he.trans (by decide))
    rw [hb]; decide
  have k2 : l.take 10 ≠ "0x23b872dd".data := by
    intro he
    apply hsel
    have hb := take10_selector_bytes l '2' '3' 'b' '8' '7' '2' 'd' 'd' (he.trans (by decide))
    rw [hb]; decide
  have k3 : l.take 10 ≠ "0x095ea7b3".data := by
    intro he
    apply hsel
    have hb := take10_selector_bytes l '0' '9' '5' 'e' 'a' '7' 'b' '3' (he.trans (by decide))
    rw [hb]; decide
  have k4 : l.take 10 ≠ "0x70a08231".data := by
    intro he
    apply hsel
    have hb := take10_selector_bytes l '7' '0' 'a' '0' '8' '2' '3' '1' (he.trans (by decide))
    rw [hb]; decide
  have hlook : lookupKnown (l.take 10) = none := by
    simp [lookupKnown, k1, k2, k3, k4]
  simp [TransactionDataDecoder.decodeFunctionCallL, hval, Nat.not_lt.mpr hlen, hlook]

/-- Witness for C8 at the test suite's unknown-selector input. -/
theorem c8_decodeFunctionCall_unknown_selector_witness :
    TransactionDataDecoder.decodeFunctionCall
        "0xabcdef120000000000000000000000000000000000000000000000000000000000000001" =
      { success := true, value := "0xabcdef12", signature := some "0xabcdef12" } := by
  have h := c8_decodeFunctionCall_unknown_selector
    "0xabcdef120000000000000000000000000000000000000000000000000000000000000001".data
    (by decide) (by decide) (by decide)
  exact h.trans (by decide)

/-- C9: on well-formed hex data whose selector is a known function but
whose trailing bytes fail to decode as that function's parameter types,
`decodeFunctionCall` still returns success with `name` and `signature`
populated, no `params`, and an error note naming the failure. -/
theorem c9_decodeFunctionCall_param_failure (l : List Char) (fn : KnownFn) (m : String)
    (hval : (TransactionDataDecoder.validateHexDataL l).valid = true)
    (hlen : 10 ≤ l.length)
    (hlook : lookupKnown (l.take 10) = some fn)
    (herr : decodeParams fn.types (hexPairsToBytes (l.drop 10)) = .error m) :
    TransactionDataDecoder.decodeFunctionCallL l =
      { success := true, value := fn.name
        signature := some (String.mk (l.take 10))
        name := some fn.name
        params := none
        error := some ("Identified function but failed to decode parameters: " ++ m) } := by
  simp [TransactionDataDecoder.decodeFunctionCallL, hval, Nat.not_lt.mpr hlen, hlook, herr]

/-- Witness for C9: the bare transfer selector with no parameter bytes. -/
theorem c9_decodeFunctionCall_param_failure_witness :
    TransactionDataDecoder.decodeFunctionCall "0xa9059cbb" =
      { success := true, value := "transfer", signature := some "0xa9059cbb"
        name := some "transfer", params := none
        error := some
          ("Identified function but failed to decode parameters: data out-of-bounds") } := by
  have h := c9_decodeFunctionCall_param_failure "0xa9059cbb".data
    { name := "transfer", types := [AbiType.address, AbiType.uint256] }
    "data out-of-bounds" (by decide) (by decide) (by decide) (by decide)
  exact h.trans (by decide)

/-! ## C10: failure results -/
theorem validateHexDataL_invalid_error (l : List Char)
    (h : (TransactionDataDecoder.validateHexDataL l).valid = false) :
    ∃ m, (TransactionDataDecoder.validateHexDataL l).error = some m ∧ m ≠ "" := by
  unfold TransactionDataDecoder.validateHexDataL at h ⊢
  split_ifs at h ⊢ with h1 h2 h3 h4
  · exact ⟨"Data is empty", rfl, by decide⟩
  · exact ⟨"Hex data must start with 0x", rfl, by decide⟩
  · exact ⟨"Data contains invalid hex characters", rfl, by decide⟩
  · exact ⟨"Hex data must have even length", rfl, by decide⟩

theorem string_append_ne_empty (a b : String) (h : a ≠ "") : a ++ b ≠ "" := by
  intro he
  apply h
  have hd : a.data ++ b.data = [] := by
    have := congrArg String.data he
    simpa using this
  rcases List.append_eq_nil.mp hd with ⟨ha, _⟩
  exact String.ext (ha.trans rfl)

theorem decodeAsciiDataL_failure_shape (l : List Char)
    (h : (TransactionDataDecoder.decodeAsciiDataL l).success = false) :
    (TransactionDataDecoder.decodeAsciiDataL l).value = "" ∧
      ∃ m, (TransactionDataDecoder.decodeAsciiDataL l).error = some m ∧ m ≠ "" := by
  unfold TransactionDataDecoder.decodeAsciiDataL at h ⊢
  by_cases h1 : (TransactionDataDecoder.validateHexDataL l).valid = false
  · obtain ⟨m, hm, hne⟩ := validateHexDataL_invalid_error l h1
    simp [h1, hm]
    exact hne
  · by_cases h2 : l.length < 66
    · simp [h1, h2]
    · rcases hE : utf8Decode (hexPairsToBytes (l.drop 66)) with m | cs
      · simp [h1, h2, hE]
        exact string_append_ne_empty "Failed to decode data: " m (by decide)
      · simp [h1, h2, hE] at h

theorem decodeFunctionCallL_failure_shape (l : List Char)
    (h : (TransactionDataDecoder.decodeFunctionCallL l).success = false) :
    (TransactionDataDecoder.decodeFunctionCallL l).value = "" ∧
      ∃ m, (TransactionDataDecoder.decodeFunctionCallL l).error = some m ∧ m ≠ "" := by
  unfold TransactionDataDecoder.decodeFunctionCallL at h ⊢
  by_cases h1 : (TransactionDataDecoder.validateHexDataL l).valid = false
  · obtain ⟨m, hm, hne⟩ := validateHexDataL_invalid_error l h1
    simp [h1, hm]
    exact hne
  · by_cases h2 : l.length < 10
    · simp [h1, h2]
    · rcases hL : lookupKnown (l.take 10) with _ | fn
      · simp [h1, h2, hL] at h
      · rcases hP : decodeParams fn.types (hexPairsToBytes (l.drop 10)) with m | ps
        · simp [h1, h2, hL, hP] at h
        · simp [h1, h2, hL, hP] at h

/-- C10: whenever `decodeAsciiData` or `decodeFunctionCall` fails
(`success = false`), the result's `value` is the empty string and its
`error` is populated with a non-empty reason. -/
theorem c10_failure_results :
    (∀ s : String, (TransactionDataDecoder.decodeAsciiData s).success = false →
        (TransactionDataDecoder.decodeAsciiData s).value = "" ∧
          ∃ m, (TransactionDataDecoder.decodeAsciiData s).error = some m ∧ m ≠ "") ∧
      ∀ s : String, (TransactionDataDecoder.decodeFunctionCall s).success = false →
        (TransactionDataDecoder.decodeFunctionCall s).value = "" ∧
          ∃ m, (TransactionDataDecoder.decodeFunctionCall s).error = some m ∧ m ≠ "" :=
  ⟨fun s h => decodeAsciiDataL_failure_shape s.data h,
   fun s h => decodeFunctionCallL_failure_shape s.data h⟩

/-- Witness for C10 at a concrete malformed input. -/
theorem c10_failure_results_witness :
    (TransactionDataDecoder.decodeAsciiData "zz").value = "" ∧
      (∃ m, (TransactionDataDecoder.decodeAsciiData "zz").error = some m ∧ m ≠ "") ∧
      (TransactionDataDecoder.decodeFunctionCall "zz").value = "" ∧
      ∃ m, (TransactionDataDecoder.decodeFunctionCall "zz").error = some m ∧ m ≠ "" := by
  obtain ⟨h1, h2⟩ := c10_failure_results
  obtain ⟨ha, hb⟩ := h1 "zz" (by decide)
  obtain ⟨hc, hd⟩ := h2 "zz" (by decide)
  exact ⟨ha, hb, hc, hd⟩

/-! ## C7: decodeFunctionCall on ERC-20 transfer calldata -/
theorem hexOfBytes_append (l1 l2 : List Nat) :
    hexOfBytes (l1 ++ l2) = hexOfBytes l1 ++ hexOfBytes l2 := by
  induction l1 with
  | nil => rfl
  | cons b t ih => simp [hexOfBytes, ih]

theorem hexOfBytes_length (l : List Nat) : (hexOfBytes l).length = 2 * l.length := by
  induction l with
  | nil => rfl
  | cons b t ih => simp [hexOfBytes, ih]; ring

theorem isHexDigitChar_hexDigitChar {k : Nat} (h : k < 16) :
    isHexDigitChar (hexDigitChar k) = true := by
  have hall : ∀ j : Fin 16, isHexDigitChar (hexDigitChar j.val) = true := by decide
  exact hall ⟨k, h⟩

theorem hexDigitVal_hexDigitChar {k : Nat} (h : k < 16) :
    hexDigitVal (hexDigitChar k) = k := by
  have hall : ∀ j : Fin 16, hexDigitVal (hexDigitChar j.val) = j.val := by decide
  exact hall ⟨k, h⟩

theorem hexOfBytes_all_hex (l : List Nat) (h : ∀ b ∈ l, b < 256) :
    (hexOfBytes l).all isHexDigitChar = true := by
  induction l with
  | nil => rfl
  | cons b t ih =>
    have hb : b < 256 := h b (List.mem_cons_self b t)
    have hdiv : b / 16 < 16 := by omega
    have hmod : b % 16 < 16 := Nat.mod_lt _ (by norm_num)
    simp [hexOfBytes, isHexDigitChar_hexDigitChar hdiv, isHexDigitChar_hexDigitChar hmod,
      ih (fun x hx => h x (List.mem_cons_of_mem b hx))]

theorem hexPairsToBytes_hexOfBytes (l : List Nat) (h : ∀ b ∈ l, b < 256) :
    hexPairsToBytes (hexOfBytes l) = l := by
  induction l with
  | nil => rfl
  | cons b t ih =>
    have hb : b < 256 := h b (List.mem_cons_self b t)
    have hdiv : b / 16 < 16 := by omega
    have hmod : b % 16 < 16 := Nat.mod_lt _ (by norm_num)
    show (hexDigitVal (hexDigitChar (b / 16)) * 16 + hexDigitVal (hexDigitChar (b % 16))) ::
        hexPairsToBytes (hexOfBytes t) = b :: t
    rw [hexDigitVal_hexDigitChar hdiv, hexDigitVal_hexDigitChar hmod,
      ih (fun x hx => h x (List.mem_cons_of_mem b hx))]
    congr 1
    omega

theorem validateHexDataL_hexOfBytes (bs : List Nat) (h : ∀ b ∈ bs, b < 256) :
    TransactionDataDecoder.validateHexDataL ('0' :: 'x' :: hexOfBytes bs) =
      { valid := true, error := none } := by
  have hhex := hexOfBytes_all_hex bs h
  have heven : (hexOfBytes bs).length % 2 = 0 := by
    rw [hexOfBytes_length]
    exact Nat.mul_mod_right 2 bs.length
  simp [TransactionDataDecoder.validateHexDataL, startsWith0x, hhex, heven]

theorem decodeParams_transfer_words (a n : Nat) (ha : a < 2 ^ 160) (hn : n < 2 ^ 256) :
    decodeParams [AbiType.address, AbiType.uint256] (beBytes 32 a ++ beBytes 32 n) =
      .ok [Param.addr a, Param.uint n] := by
  have hlen : (beBytes 32 a ++ beBytes 32 n).length = 64 := by
    simp [beBytes_length]
  have hw1 : (beBytes 32 a ++ beBytes 32 n).take 32 = beBytes 32 a :=
    List.take_left' (beBytes_length 32 a)
  have hw2 : ((beBytes 32 a ++ beBytes 32 n).drop 32).take 32 = beBytes 32 n := by
    rw [List.drop_left' (beBytes_length 32 a)]
    exact List.take_of_length_le (le_of_eq (beBytes_length 32 n))
  have hva : natOfBE (beBytes 32 a) = a :=
    natOfBE_beBytes_of_lt (lt_of_lt_of_le ha (by norm_num))
  have hvn : natOfBE (beBytes 32 n) = n :=
    natOfBE_beBytes_of_lt (lt_of_lt_of_le hn (le_of_eq (by norm_num)))
  have ha' : a < 1461501637330902918203684832716283019655932542976 := by
    simpa using ha
  simp [decodeParams, decodeParamsAux, hlen, hw1, hw2, hva, hvn, ha', Except.map]

/-- The successful known-selector branch of `decodeFunctionCall`. -/
theorem decodeFunctionCallL_known_ok (l : List Char) (fn : KnownFn) (ps : List Param)
    (hval : (TransactionDataDecoder.validateHexDataL l).valid = true)
    (hlen : 10 ≤ l.length)
    (hlook : lookupKnown (l.take 10) = some fn)
    (hok : decodeParams fn.types (hexPairsToBytes (l.drop 10)) = .ok ps) :
    TransactionDataDecoder.decodeFunctionCallL l =
      { success := true
        value := fn.name ++ "(" ++ String.intercalate "," (fn.types.map abiTypeName) ++ ")"
        signature := some (String.mk (l.take 10))
        name := some fn.name
        params := some ps } := by
  simp [TransactionDataDecoder.decodeFunctionCallL, hval, Nat.not_lt.mpr hlen, hlook, hok]

/-- C7 as amended: for every `transfer` calldata string in lowercase hex —
the selector `0xa9059cbb` followed by the 32-byte word of a 20-byte
address and a 32-byte big-endian amount — `decodeFunctionCall` returns
success with `name = "transfer"`, `signature = "0xa9059cbb"`, and exactly
the two parameters (the address value, which is the checksummed address
up to case, and the decimal amount) in declared order. -/
theorem c7_decodeFunctionCall_transfer (a n : Nat) (ha : a < 2 ^ 160) (hn : n < 2 ^ 256) :
    TransactionDataDecoder.decodeFunctionCall (String.mk (transferCallChars a n)) =
      { success := true, value := "transfer(address,uint256)"
        signature := some "0xa9059cbb", name := some "transfer"
        params := some [Param.addr a, Param.uint n], error := none } := by
  have hbs : ∀ b ∈ [0xa9, 0x05, 0x9c, 0xbb] ++ beBytes 32 a ++ beBytes 32 n, b < 256 := by
    intro b hb
    rcases List.mem_append.mp hb with hb | hb
    · rcases List.mem_append.mp hb with hb | hb
      · fin_cases hb <;> norm_num
      · exact beBytes_lt 32 a b hb
    · exact beBytes_lt 32 n b hb
  have hvalid : (TransactionDataDecoder.validateHexDataL (transferCallChars a n)).valid = true := by
    exact congrArg ValidationResult.valid (validateHexDataL_hexOfBytes _ hbs)
  have h8 : hexOfBytes [0xa9, 0x05, 0x9c, 0xbb] = ['a', '9', '0', '5', '9', 'c', 'b', 'b'] := by
    decide
  have hsplit : transferCallChars a n =
      '0' :: 'x' :: (['a', '9', '0', '5', '9', 'c', 'b', 'b'] ++
        hexOfBytes (beBytes 32 a ++ beBytes 32 n)) := by
    show '0' :: 'x' :: hexOfBytes ([0xa9, 0x05, 0x9c, 0xbb] ++ beBytes 32 a ++ beBytes 32 n) = _
    rw [List.append_assoc, hexOfBytes_append, h8]
  have htake : (transferCallChars a n).take 10 = "0xa9059cbb".data := by
    rw [hsplit]
    show '0' :: 'x' :: (['a', '9', '0', '5', '9', 'c', 'b', 'b'] ++
      hexOfBytes (beBytes 32 a ++ beBytes 32 n)).take 8 = _
    rw [List.take_left' (by rfl)]
  have hdrop : (transferCallChars a n).drop 10 = hexOfBytes (beBytes 32 a ++ beBytes 32 n) := by
    rw [hsplit]
    show (['a', '9', '0', '5', '9', 'c', 'b', 'b'] ++
      hexOfBytes (beBytes 32 a ++ beBytes 32 n)).drop 8 = _
    rw [List.drop_left' (by rfl)]
  have hparse : hexPairsToBytes (hexOfBytes (beBytes 32 a ++ beBytes 32 n)) =
      beBytes 32 a ++ beBytes 32 n := by
    apply hexPairsToBytes_hexOfBytes
    intro b hb
    rcases List.mem_append.mp hb with hb | hb
    · exact beBytes_lt 32 a b hb
    · exact beBytes_lt 32 n b hb
  have hlook : lookupKnown ((transferCallChars a n).take 10) =
      some { name := "transfer", types := [AbiType.address, AbiType.uint256] } := by
    rw [htake]
    decide
  have hlen10 : 10 ≤ (transferCallChars a n).length := by
    rw [hsplit]
    simp [hexOfBytes_length]
  have hok : decodeParams [AbiType.address, AbiType.uint256]
      (hexPairsToBytes ((transferCallChars a n).drop 10)) =
        .ok [Param.addr a, Param.uint n] := by
    rw [hdrop, hparse]
    exact decodeParams_transfer_words a n ha hn
  have happ := decodeFunctionCallL_known_ok (transferCallChars a n)
    { name := "transfer", types := [AbiType.address, AbiType.uint256] }
    [Param.addr a, Param.uint n] hvalid hlen10 hlook hok
  refine Eq.trans happ ?_
  rw [htake]
  simp only [DecodedFunctionResult.mk.injEq]
  and_intros <;> first
    | rfl
    | decide

/-- Counterexample to C7 as stated: this UPPERCASE hex string is
well-formed, its leading 4 bytes are the transfer selector `0xa9059cbb`,
and its trailing bytes are exactly the left-padded 20-byte address word
followed by the 256-bit amount word — yet `decodeFunctionCall` does not
recognize it (the table lookup is case-sensitive on the selector slice):
it returns the unknown-selector shape with no `name`, no `params` and the
uppercase signature. -/
theorem c7_uppercase_hex_counterexample :
    (TransactionDataDecoder.validateHexData
        "0xA9059CBB0000000000000000000000008B4B268A9AA797FD60889E88AC7BE9A0C4B37FF40000000000000000000000000000000000000000000000000000000511B5AC00").valid =
        true ∧
      (hexPairsToBytes
          ("0xA9059CBB0000000000000000000000008B4B268A9AA797FD60889E88AC7BE9A0C4B37FF40000000000000000000000000000000000000000000000000000000511B5AC00".data.drop
            2)).take 4 = [0xa9, 0x05, 0x9c, 0xbb] ∧
      hexPairsToBytes
          ("0xA9059CBB0000000000000000000000008B4B268A9AA797FD60889E88AC7BE9A0C4B37FF40000000000000000000000000000000000000000000000000000000511B5AC00".data.drop
            10) =
        beBytes 32 0x8b4B268a9aA797fD60889E88AC7bE9a0C4b37Ff4 ++ beBytes 32 21771955200 ∧
      TransactionDataDecoder.decodeFunctionCall
          "0xA9059CBB0000000000000000000000008B4B268A9AA797FD60889E88AC7BE9A0C4B37FF40000000000000000000000000000000000000000000000000000000511B5AC00" =
        { success := true, value := "0xA9059CBB", signature := some "0xA9059CBB" } := by
  refine ⟨by decide, by decide, by decide, by decide⟩

/-- Witness for C7's amended theorem at the test suite's transfer call. -/
theorem c7_decodeFunctionCall_transfer_witness :
    TransactionDataDecoder.decodeFunctionCall
        (String.mk (transferCallChars 0x8b4B268a9aA797fD60889E88AC7bE9a0C4b37Ff4 21771955200)) =
      { success := true, value := "transfer(address,uint256)"
        signature := some "0xa9059cbb", name := some "transfer"
        params := some
          [Param.addr 0x8b4B268a9aA797fD60889E88AC7bE9a0C4b37Ff4, Param.uint 21771955200]
        error := none } :=
  c7_decodeFunctionCall_transfer 0x8b4B268a9aA797fD60889E88AC7bE9a0C4b37Ff4 21771955200
    (by norm_num) (by norm_num)
